import Mathlib

/-!
Verification development for the `quickhttp` package: a small CLI that serves a
local directory over HTTP for a bounded time, automatically locating an
available TCP port when none is supplied.

The embedding covers:
* `quickhttp/http_server.py`: `is_port_available`, `find_available_port`,
  and the timed serve loop of `run_timed_http_server`;
* `quickhttp/quickhttp.py`: the CLI command body `quickhttp` (port resolution
  and the call into the timed-server run operation).

External effects are made explicit:
* the network's listening state is an oracle `connects : Int → Bool`
  (`connects p` models `socket.connect_ex(("127.0.0.1", p)) == 0`, i.e.
  something is accepting connections on port `p`);
* `random.sample(range(range_min, range_max + 1), max_tries)` is modelled by a
  `sample : List Int` parameter constrained by `validSample` (a sample of
  pairwise-distinct ports drawn from the range, of the requested length),
  which is exactly the documented contract of `random.sample` on that range;
* the serve loop's environment is a script `List ServerEvent`, one event per
  `handle_request` call (an accepted request, a timeout expiry, or a
  `KeyboardInterrupt` delivered during the blocking wait).

`find_available_port` is instrumented: it returns both the Python function's
outcome (`FindResult`) and the list of ports actually probed, in probe order,
so that claims about probe counts and probe order can be stated.
-/

/-- Embedding of `is_port_available` (http_server.py lines 16-31): attempt a
TCP connection to `127.0.0.1:port`; a successful connection
(`connect_ex == 0`, i.e. `connects port = true`) means the port is in use, so
the function returns `false`; otherwise `true`. It is a pure function of the
oracle `connects`. -/
def is_port_available (connects : Int → Bool) (port : Int) : Bool :=
  !(connects port)

/-- The value set of the `SearchType` str-Enum (http_server.py lines 34-44):
`SearchType.sequential = "sequential"`. -/
def SearchType.sequential : String := "sequential"

/-- The value set of the `SearchType` str-Enum: `SearchType.random = "random"`. -/
def SearchType.random : String := "random"

/-- Outcome of `find_available_port`: a found port, or one of the two
exceptions from `quickhttp/exceptions.py`. `noAvailablePortFound` carries the
data interpolated into the raised message (http_server.py lines 103-106):
the searched range, the search-type value, and the clamped try count. -/
inductive FindResult where
  | ok (port : Int)
  | noAvailablePortFound (rangeMin rangeMax : Int) (searchType : String) (tries : Int)
  | invalidSearchType (searchType : String)
deriving DecidableEq

/-- Python's `range(lo, hi)` as a list: `lo, lo + 1, ..., hi - 1`
(empty when `hi ≤ lo`). -/
def pythonRange (lo hi : Int) : List Int :=
  (List.range (hi - lo).toNat).map (fun i : Nat => lo + i)

/-- `max_tries = min(max_tries, range_max - range_min + 1)`
(http_server.py line 85). -/
def clampedTries (maxTries rangeMin rangeMax : Int) : Int :=
  min maxTries (rangeMax - rangeMin + 1)

/-- `islice(range(range_min, range_max + 1), max_tries)` with the clamped
try count (http_server.py line 89): the candidate ports of the sequential
search. -/
def seqCandidates (rangeMin rangeMax maxTries : Int) : List Int :=
  (pythonRange rangeMin (rangeMax + 1)).take (clampedTries maxTries rangeMin rangeMax).toNat

/-- What `random.sample(range(rangeMin, rangeMax + 1), k)` guarantees about
its result: `k` pairwise-distinct ports from the closed range, in some order. -/
def validSample (rangeMin rangeMax : Int) (k : Nat) (sample : List Int) : Prop :=
  sample.Nodup ∧ sample.length = k ∧ ∀ p ∈ sample, rangeMin ≤ p ∧ p ≤ rangeMax

instance (rangeMin rangeMax : Int) (k : Nat) (sample : List Int) :
    Decidable (validSample rangeMin rangeMax k sample) := by
  unfold validSample
  infer_instance

/-- The `for port in to_try` loop (http_server.py lines 99-101): return the
first candidate the availability check accepts, `none` when exhausted. -/
def probeLoop (connects : Int → Bool) : List Int → Option Int
  | [] => none
  | p :: rest =>
    if is_port_available connects p then some p else probeLoop connects rest

/-- The ports the loop actually probes, in order: every candidate up to and
including the first available one (all candidates when none is available). -/
def probedPorts (connects : Int → Bool) : List Int → List Int
  | [] => []
  | p :: rest =>
    if is_port_available connects p then [p] else p :: probedPorts connects rest

/-- Embedding of `find_available_port` (http_server.py lines 59-106),
instrumented with the list of probed ports. The branch on `search_type`
mirrors the source: `"sequential"` probes `islice(range(...), max_tries)`,
`"random"` probes the `random.sample` result (the `sample` parameter), any
other value raises `InvalidSearchTypeError` before any probing. -/
def find_available_port (connects : Int → Bool) (sample : List Int)
    (range_min range_max max_tries : Int) (search_type : String) :
    FindResult × List Int :=
  if search_type = SearchType.sequential then
    let to_try := seqCandidates range_min range_max max_tries
    (match probeLoop connects to_try with
      | some p => FindResult.ok p
      | none => FindResult.noAvailablePortFound range_min range_max
          SearchType.sequential (clampedTries max_tries range_min range_max),
     probedPorts connects to_try)
  else if search_type = SearchType.random then
    (match probeLoop connects sample with
      | some p => FindResult.ok p
      | none => FindResult.noAvailablePortFound range_min range_max
          SearchType.random (clampedTries max_tries range_min range_max),
     probedPorts connects sample)
  else
    (FindResult.invalidSearchType search_type, [])

/-! ### Basic lemmas about the probe loop and candidate sequences -/

theorem probedPorts_sublist (connects : Int → Bool) (l : List Int) :
    List.Sublist (probedPorts connects l) l := by
  induction l with
  | nil => simp [probedPorts]
  | cons p rest ih =>
    by_cases h : is_port_available connects p
    · simp [probedPorts, h]
    · simpa [probedPorts, h] using ih.cons₂ p

theorem probedPorts_length_le (connects : Int → Bool) (l : List Int) :
    (probedPorts connects l).length ≤ l.length :=
  (probedPorts_sublist connects l).length_le

theorem probedPorts_nodup (connects : Int → Bool) (l : List Int)
    (h : l.Nodup) : (probedPorts connects l).Nodup :=
  (probedPorts_sublist connects l).nodup h

theorem probedPorts_pairwise (connects : Int → Bool) (l : List Int)
    (r : Int → Int → Prop) (h : l.Pairwise r) :
    (probedPorts connects l).Pairwise r :=
  h.sublist (probedPorts_sublist connects l)

theorem probeLoop_eq_none_iff (connects : Int → Bool) (l : List Int) :
    probeLoop connects l = none ↔
      ∀ p ∈ l, is_port_available connects p = false := by
  induction l with
  | nil => simp [probeLoop]
  | cons p rest ih =>
    by_cases h : is_port_available connects p
    · simp [probeLoop, h]
    · simp only [Bool.not_eq_true] at h
      simp [probeLoop, h, ih, List.forall_mem_cons]

theorem probedPorts_of_none (connects : Int → Bool) (l : List Int)
    (h : probeLoop connects l = none) : probedPorts connects l = l := by
  induction l with
  | nil => rfl
  | cons p rest ih =>
    by_cases hp : is_port_available connects p
    · simp [probeLoop, hp] at h
    · simp only [probeLoop, hp, if_neg, Bool.false_eq_true, not_false_iff] at h
      simp [probedPorts, hp, ih (by simpa [probeLoop, hp] using h)]

theorem probeLoop_some (connects : Int → Bool) (l : List Int) (p : Int)
    (h : probeLoop connects l = some p) :
    is_port_available connects p = true ∧
      probedPorts connects l =
        l.takeWhile (fun q => !is_port_available connects q) ++ [p] := by
  induction l with
  | nil => simp [probeLoop] at h
  | cons q rest ih =>
    by_cases hq : is_port_available connects q
    · simp only [probeLoop, hq, if_pos, Option.some.injEq] at h
      subst h
      simp [probedPorts, List.takeWhile, hq]
    · simp only [probeLoop, hq, Bool.false_eq_true, if_neg, not_false_iff] at h
      rcases ih h with ⟨h1, h2⟩
      refine ⟨h1, ?_⟩
      simp [probedPorts, List.takeWhile, hq, h2]

theorem probedPorts_head? (connects : Int → Bool) (l : List Int) :
    (probedPorts connects l).head? = l.head? := by
  cases l with
  | nil => rfl
  | cons p rest =>
    by_cases h : is_port_available connects p <;> simp [probedPorts, h]

theorem pythonRange_length (lo hi : Int) :
    (pythonRange lo hi).length = (hi - lo).toNat := by
  unfold pythonRange
  rw [List.length_map, List.length_range]

theorem mem_pythonRange (lo hi p : Int) :
    p ∈ pythonRange lo hi ↔ lo ≤ p ∧ p < hi := by
  unfold pythonRange
  rw [List.mem_map]
  constructor
  · rintro ⟨i, hmem, rfl⟩
    rw [List.mem_range] at hmem
    omega
  · rintro ⟨h1, h2⟩
    refine ⟨(p - lo).toNat, ?_, ?_⟩
    · rw [List.mem_range]
      omega
    · omega

theorem pythonRange_pairwise (lo hi : Int) :
    (pythonRange lo hi).Pairwise (· < ·) := by
  unfold pythonRange
  refine List.Pairwise.map _ ?_ (List.pairwise_lt_range _)
  intro a b hab
  omega

theorem pythonRange_nodup (lo hi : Int) : (pythonRange lo hi).Nodup :=
  (pythonRange_pairwise lo hi).imp (fun h => Int.ne_of_lt h)

theorem pythonRange_head? (lo hi : Int) (h : lo < hi) :
    (pythonRange lo hi).head? = some lo := by
  have hpos : 0 < (hi - lo).toNat := by omega
  obtain ⟨k, hk⟩ := Nat.exists_eq_succ_of_ne_zero (Nat.pos_iff_ne_zero.mp hpos)
  simp [pythonRange, hk, List.range_succ_eq_map]

theorem pythonRange_nodup' (lo hi : Int) : (pythonRange lo hi).Nodup :=
  (pythonRange_pairwise lo hi).imp (fun h => Int.ne_of_lt h)

theorem head?_take_pos (l : List Int) (n : Nat) (h : 0 < n) :
    (l.take n).head? = l.head? := by
  cases l with
  | nil => simp
  | cons a as =>
    cases n with
    | zero => omega
    | succ m => simp

theorem clampedTries_pos (mt rmin rmax : Int) (hle : rmin ≤ rmax) (hmt : 1 ≤ mt) :
    1 ≤ clampedTries mt rmin rmax :=
  le_min hmt (by omega)

theorem seqCandidates_length (rmin rmax mt : Int) :
    (seqCandidates rmin rmax mt).length = (clampedTries mt rmin rmax).toNat := by
  unfold seqCandidates
  rw [List.length_take, pythonRange_length]
  have h : clampedTries mt rmin rmax ≤ rmax + 1 - rmin := by
    have := min_le_right mt (rmax - rmin + 1)
    unfold clampedTries
    omega
  exact min_eq_left (by omega)

theorem seqCandidates_pairwise (rmin rmax mt : Int) :
    (seqCandidates rmin rmax mt).Pairwise (· < ·) :=
  (pythonRange_pairwise _ _).sublist (List.take_sublist _ _)

theorem seqCandidates_nodup (rmin rmax mt : Int) :
    (seqCandidates rmin rmax mt).Nodup :=
  (seqCandidates_pairwise rmin rmax mt).imp (fun h => Int.ne_of_lt h)

theorem seqCandidates_mem (rmin rmax mt p : Int)
    (h : p ∈ seqCandidates rmin rmax mt) : rmin ≤ p ∧ p ≤ rmax := by
  have hp := List.take_subset _ _ h
  rw [mem_pythonRange] at hp
  omega

theorem seqCandidates_head? (rmin rmax mt : Int) (hle : rmin ≤ rmax) (hmt : 1 ≤ mt) :
    (seqCandidates rmin rmax mt).head? = some rmin := by
  unfold seqCandidates
  rw [head?_take_pos]
  · exact pythonRange_head? rmin (rmax + 1) (by omega)
  · have := clampedTries_pos mt rmin rmax hle hmt
    omega

theorem find_available_port_sequential (connects : Int → Bool) (sample : List Int)
    (rmin rmax mt : Int) :
    find_available_port connects sample rmin rmax mt SearchType.sequential =
      (match probeLoop connects (seqCandidates rmin rmax mt) with
        | some p => FindResult.ok p
        | none => FindResult.noAvailablePortFound rmin rmax SearchType.sequential
            (clampedTries mt rmin rmax),
       probedPorts connects (seqCandidates rmin rmax mt)) := by
  unfold find_available_port
  rw [if_pos rfl]

theorem find_available_port_random (connects : Int → Bool) (sample : List Int)
    (rmin rmax mt : Int) :
    find_available_port connects sample rmin rmax mt SearchType.random =
      (match probeLoop connects sample with
        | some p => FindResult.ok p
        | none => FindResult.noAvailablePortFound rmin rmax SearchType.random
            (clampedTries mt rmin rmax),
       probedPorts connects sample) := by
  unfold find_available_port
  rw [if_neg (by decide), if_pos rfl]

/-! ### The timed HTTP server (http_server.py lines 109-150) -/

/-- What one `httpd.handle_request()` call can observe, as seen by the serve
loop: an accepted connection handled to completion, a timeout expiry (socket
wait exceeded `self.timeout`, so `handle_timeout` sets `timeout_reached` and
the call returns without a connection), or a `KeyboardInterrupt` delivered
during the blocking wait. -/
inductive ServerEvent where
  | request
  | timeout
  | interrupt
deriving DecidableEq

/-- How the `while not httpd.timeout_reached` loop ends: normally after the
flag is observed true (then `"Timeout reached."` is echoed), by a caught
`KeyboardInterrupt` (then `" KeyboardInterrupt received."` is echoed), or not
at all yet because the event script ran out while the loop was still
waiting. -/
inductive LoopResult where
  | timeoutExit
  | interruptExit
  | pending
deriving DecidableEq

/-- The serve loop of `run_timed_http_server` (http_server.py lines 145-150):
check `timeout_reached`, and if it is still false run `handle_request()`,
consuming the next event. A `timeout` event models `handle_timeout` flipping
the flag; an `interrupt` event models `KeyboardInterrupt` escaping
`handle_request` into the `except` clause. -/
def serveLoop (timeout_reached : Bool) : List ServerEvent → LoopResult
  | [] => if timeout_reached then LoopResult.timeoutExit else LoopResult.pending
  | e :: rest =>
    if timeout_reached then LoopResult.timeoutExit
    else
      match e with
      | ServerEvent.request => serveLoop timeout_reached rest
      | ServerEvent.timeout => serveLoop true rest
      | ServerEvent.interrupt => LoopResult.interruptExit

/-- Embedding of `run_timed_http_server` (http_server.py lines 129-150),
run against an event script. Returns the `typer.echo` output of the function
body and whether the listening socket was released: the `with` statement
closes the server whenever the block exits — on the timeout path and on the
caught-`KeyboardInterrupt` path alike — and the socket stays held only while
the loop is still blocked waiting (`LoopResult.pending`). The bind address,
port, served directory and timeout are the `ServerConfig`; the loop outcome
does not depend on them (request handling itself is delegated to
`SimpleHTTPRequestHandler`). -/
def run_timed_http_server (address : String) (port : Int) (directory : String)
    (timeout : Int) (events : List ServerEvent) : List String × Bool :=
  match serveLoop false events with
  | LoopResult.timeoutExit => (["Timeout reached."], true)
  | LoopResult.interruptExit => ([" KeyboardInterrupt received."], true)
  | LoopResult.pending => ([], false)

theorem serveLoop_true (events : List ServerEvent) :
    serveLoop true events = LoopResult.timeoutExit := by
  cases events <;> simp [serveLoop]

theorem serveLoop_requests_interrupt (pre rest : List ServerEvent)
    (hpre : ∀ e ∈ pre, e = ServerEvent.request) :
    serveLoop false (pre ++ ServerEvent.interrupt :: rest) =
      LoopResult.interruptExit := by
  induction pre with
  | nil => simp [serveLoop]
  | cons e pre ih =>
    have he : e = ServerEvent.request := hpre e (List.mem_cons_self e pre)
    subst he
    simpa [serveLoop] using ih (fun x hx => hpre x (List.mem_cons_of_mem _ hx))

theorem serveLoop_requests_timeout (pre rest : List ServerEvent)
    (hpre : ∀ e ∈ pre, e = ServerEvent.request) :
    serveLoop false (pre ++ ServerEvent.timeout :: rest) =
      LoopResult.timeoutExit := by
  induction pre with
  | nil => simpa [serveLoop] using serveLoop_true rest
  | cons e pre ih =>
    have he : e = ServerEvent.request := hpre e (List.mem_cons_self e pre)
    subst he
    simpa [serveLoop] using ih (fun x hx => hpre x (List.mem_cons_of_mem _ hx))

/-! ### The CLI command (quickhttp.py lines 28-87) -/

/-- The port-resolution step of the CLI command body (quickhttp.py lines
75-81): `if not port: port = find_available_port(...)`. Python's `not port`
is true when `port` is `None` and also when it is `0`. Returns the resolution
outcome together with the ports probed during resolution (empty when the
locator was bypassed). -/
def resolve_port (connects : Int → Bool) (sample : List Int) (port : Option Int)
    (rmin rmax mt : Int) (st : String) : FindResult × List Int :=
  match port with
  | none => find_available_port connects sample rmin rmax mt st
  | some p =>
    if p = 0 then find_available_port connects sample rmin rmax mt st
    else (FindResult.ok p, [])

/-- The startup `typer.echo` message (quickhttp.py lines 82-85); the
`str(timedelta(seconds=time_sec))` rendering is abstracted to the plain
seconds value, which no claim inspects. -/
def startupMessage (port : Int) (directory : String) (time_sec : Int) : String :=
  "Starting http.server at http://0.0.0.0:" ++ toString port ++
    " for directory [" ++ directory ++ "]. Server will stay alive for " ++
    toString time_sec ++ "s."

/-- Outcome of the CLI command body: normal completion with the emitted
messages in order, an exception propagating out of port resolution, or the
serve loop still blocked waiting for a connection. -/
inductive CliOutcome where
  | done (messages : List String)
  | raised (error : String)
  | blocked
deriving DecidableEq

/-- Modelled from the spec: the run operation the CLI invokes is
`run_timed_http_server` imported from `quickhttp.core`, a module not present
in the sources here; per the spec's control flow the caller "asks the Timed
Static Server to run with that port, directory, and timeout", and the Timed
Static Server is the one specified in section 4.3 — the same serve-loop
semantics as `run_timed_http_server` above, taking the port, the served
directory, and the timeout in seconds. Returns the messages it echoes, or
`none` while the loop is still blocked (the call never returns). -/
def core_run_timed_http_server (events : List ServerEvent) (port : Int)
    (directory : String) (time : Int) : Option (List String) :=
  match serveLoop false events with
  | LoopResult.timeoutExit => some ["Timeout reached."]
  | LoopResult.interruptExit => some [" KeyboardInterrupt received."]
  | LoopResult.pending => none

/-- Embedding of the CLI command body `quickhttp` (quickhttp.py lines 74-87),
parametric in the server-run collaborator `serverRun` (which models
`quickhttp.core.run_timed_http_server`; see `core_run_timed_http_server`):
resolve the port (running the locator when `not port` is true in Python's
sense), echo the startup message, call `serverRun` with the resolved port,
the served directory, and the timeout in seconds, and finally echo
`"Server closed."`. Locator exceptions propagate uncaught. -/
def quickhttp (serverRun : Int → String → Int → Option (List String))
    (connects : Int → Bool) (sample : List Int) (directory : String)
    (time_sec : Int) (port : Option Int) (rmin rmax mt : Int) (st : String) :
    CliOutcome :=
  match (resolve_port connects sample port rmin rmax mt st).1 with
  | FindResult.ok p =>
    match serverRun p directory time_sec with
    | some msgs =>
      CliOutcome.done (startupMessage p directory time_sec :: (msgs ++ ["Server closed."]))
    | none => CliOutcome.blocked
  | FindResult.noAvailablePortFound _ _ _ _ => CliOutcome.raised "NoAvailablePortFoundError"
  | FindResult.invalidSearchType _ => CliOutcome.raised "InvalidSearchTypeError"

/-! ### Helper lemmas on find_available_port outcomes -/

theorem find_seq_ok_iff (connects : Int → Bool) (sample : List Int)
    (rmin rmax mt p : Int) :
    (find_available_port connects sample rmin rmax mt SearchType.sequential).1 =
        FindResult.ok p ↔
      probeLoop connects (seqCandidates rmin rmax mt) = some p := by
  rw [find_available_port_sequential]
  cases h : probeLoop connects (seqCandidates rmin rmax mt) <;> simp [h]

/-! ### Claim theorems -/

/-- C3: for every range with `min ≤ max` and every `maxTries ≥ 1`,
`find_available_port` computes the effective try count as
`min(maxTries, max - min + 1)`; both strategies probe a pairwise-distinct set
of at most `max - min + 1` ports, and when the range is large enough
(`maxTries ≤ max - min + 1`) and no available port is found, exactly
`maxTries` ports are probed. -/
theorem find_available_port_probe_bounds (connects : Int → Bool)
    (rmin rmax mt : Int) (sample : List Int)
    (hle : rmin ≤ rmax) (hmt : 1 ≤ mt)
    (hs : validSample rmin rmax (clampedTries mt rmin rmax).toNat sample) :
    clampedTries mt rmin rmax = min mt (rmax - rmin + 1) ∧
    (seqCandidates rmin rmax mt).length = (clampedTries mt rmin rmax).toNat ∧
    sample.length = (clampedTries mt rmin rmax).toNat ∧
    ((find_available_port connects sample rmin rmax mt SearchType.sequential).2.Nodup ∧
      (find_available_port connects sample rmin rmax mt SearchType.sequential).2.length ≤
        (rmax - rmin + 1).toNat) ∧
    ((find_available_port connects sample rmin rmax mt SearchType.random).2.Nodup ∧
      (find_available_port connects sample rmin rmax mt SearchType.random).2.length ≤
        (rmax - rmin + 1).toNat) ∧
    (mt ≤ rmax - rmin + 1 →
      (probeLoop connects (seqCandidates rmin rmax mt) = none →
        (find_available_port connects sample rmin rmax mt SearchType.sequential).2.length =
          mt.toNat) ∧
      (probeLoop connects sample = none →
        (find_available_port connects sample rmin rmax mt SearchType.random).2.length =
          mt.toNat)) := by
  obtain ⟨hnd, hlen, hmem⟩ := hs
  have hsz : clampedTries mt rmin rmax ≤ rmax - rmin + 1 := min_le_right _ _
  have hseq2 : (find_available_port connects sample rmin rmax mt SearchType.sequential).2 =
      probedPorts connects (seqCandidates rmin rmax mt) := by
    rw [find_available_port_sequential]
  have hrand2 : (find_available_port connects sample rmin rmax mt SearchType.random).2 =
      probedPorts connects sample := by
    rw [find_available_port_random]
  refine ⟨rfl, seqCandidates_length rmin rmax mt, hlen, ⟨?_, ?_⟩, ⟨?_, ?_⟩, ?_⟩
  · rw [hseq2]
    exact probedPorts_nodup _ _ (seqCandidates_nodup _ _ _)
  · rw [hseq2]
    calc (probedPorts connects (seqCandidates rmin rmax mt)).length
        ≤ (seqCandidates rmin rmax mt).length := probedPorts_length_le _ _
      _ = (clampedTries mt rmin rmax).toNat := seqCandidates_length _ _ _
      _ ≤ (rmax - rmin + 1).toNat := by omega
  · rw [hrand2]
    exact probedPorts_nodup _ _ hnd
  · rw [hrand2]
    calc (probedPorts connects sample).length
        ≤ sample.length := probedPorts_length_le _ _
      _ = (clampedTries mt rmin rmax).toNat := hlen
      _ ≤ (rmax - rmin + 1).toNat := by omega
  · intro hmle
    have hcl : clampedTries mt rmin rmax = mt := by
      unfold clampedTries
      exact min_eq_left hmle
    constructor
    · intro hnone
      rw [hseq2, probedPorts_of_none _ _ hnone, seqCandidates_length, hcl]
    · intro hnone
      rw [hrand2, probedPorts_of_none _ _ hnone, hlen, hcl]

theorem find_available_port_probe_bounds_witness :
    (9000 : Int) ≤ 9002 ∧ (1 : Int) ≤ (2 : Int) ∧
    validSample 9000 9002 (clampedTries 2 9000 9002).toNat [9001, 9000] ∧
    (find_available_port (fun _ => true) [9001, 9000] 9000 9002 2
        SearchType.sequential).2.length ≤ ((9002 : Int) - 9000 + 1).toNat :=
  ⟨by decide, by decide, by decide,
    ((find_available_port_probe_bounds (fun _ => true) 9000 9002 2 [9001, 9000]
        (by decide) (by decide) (by decide)).2.2.2.1).2⟩

/-- C4: the sequential strategy probes ports in strictly ascending order
starting at `range_min`, and when it returns `FindResult.ok p`, `p` is the
first candidate the availability check accepted: everything probed before `p`
failed the check, and no port is probed after `p`. -/
theorem find_available_port_sequential_ascending (connects : Int → Bool)
    (sample : List Int) (rmin rmax mt : Int)
    (hle : rmin ≤ rmax) (hmt : 1 ≤ mt) :
    (find_available_port connects sample rmin rmax mt
        SearchType.sequential).2.Pairwise (· < ·) ∧
    (find_available_port connects sample rmin rmax mt
        SearchType.sequential).2.head? = some rmin ∧
    ∀ p, (find_available_port connects sample rmin rmax mt
        SearchType.sequential).1 = FindResult.ok p →
      is_port_available connects p = true ∧
      (find_available_port connects sample rmin rmax mt SearchType.sequential).2 =
        (seqCandidates rmin rmax mt).takeWhile
          (fun q => !is_port_available connects q) ++ [p] ∧
      ∀ q ∈ (seqCandidates rmin rmax mt).takeWhile
          (fun q => !is_port_available connects q),
        is_port_available connects q = false := by
  have hseq2 : (find_available_port connects sample rmin rmax mt SearchType.sequential).2 =
      probedPorts connects (seqCandidates rmin rmax mt) := by
    rw [find_available_port_sequential]
  refine ⟨?_, ?_, ?_⟩
  · rw [hseq2]
    exact probedPorts_pairwise _ _ _ (seqCandidates_pairwise _ _ _)
  · rw [hseq2, probedPorts_head?, seqCandidates_head? rmin rmax mt hle hmt]
  · intro p hp
    rw [find_seq_ok_iff] at hp
    obtain ⟨havail, hprobes⟩ := probeLoop_some connects _ p hp
    refine ⟨havail, by rw [hseq2, hprobes], ?_⟩
    intro q hq
    have h := List.mem_takeWhile_imp hq
    simpa using h

theorem find_available_port_sequential_ascending_witness :
    (9000 : Int) ≤ 9010 ∧ (1 : Int) ≤ (50 : Int) ∧
    find_available_port (fun p => decide (p ≠ 9007)) [] 9000 9010 50
        SearchType.sequential =
      (FindResult.ok 9007,
        [9000, 9001, 9002, 9003, 9004, 9005, 9006, 9007]) ∧
    (find_available_port (fun p => decide (p ≠ 9007)) [] 9000 9010 50
        SearchType.sequential).2.head? = some 9000 :=
  ⟨by decide, by decide, by decide,
    (find_available_port_sequential_ascending (fun p => decide (p ≠ 9007)) []
        9000 9010 50 (by decide) (by decide)).2.1⟩

/-- C5: the random strategy probes the `random.sample` draw — a sample of
`min(maxTries, max - min + 1)` pairwise-distinct ports from
`[range_min, range_max]` — so within a single call no port is ever probed
twice. -/
theorem find_available_port_random_distinct (connects : Int → Bool)
    (sample : List Int) (rmin rmax mt : Int)
    (hle : rmin ≤ rmax) (hmt : 1 ≤ mt)
    (hs : validSample rmin rmax (clampedTries mt rmin rmax).toNat sample) :
    sample.length = (min mt (rmax - rmin + 1)).toNat ∧
    sample.Nodup ∧
    (∀ p ∈ sample, rmin ≤ p ∧ p ≤ rmax) ∧
    (find_available_port connects sample rmin rmax mt SearchType.random).2.Nodup := by
  obtain ⟨hnd, hlen, hmem⟩ := hs
  refine ⟨hlen, hnd, hmem, ?_⟩
  have hrand2 : (find_available_port connects sample rmin rmax mt SearchType.random).2 =
      probedPorts connects sample := by
    rw [find_available_port_random]
  rw [hrand2]
  exact probedPorts_nodup _ _ hnd

theorem find_available_port_random_distinct_witness :
    (9000 : Int) ≤ 9002 ∧ (1 : Int) ≤ (2 : Int) ∧
    validSample 9000 9002 (clampedTries 2 9000 9002).toNat [9002, 9000] ∧
    (find_available_port (fun _ => true) [9002, 9000] 9000 9002 2
        SearchType.random).2.Nodup :=
  ⟨by decide, by decide, by decide,
    (find_available_port_random_distinct (fun _ => true) [9002, 9000] 9000 9002 2
        (by decide) (by decide) (by decide)).2.2.2⟩

/-- C6: when every port of `[range_min, range_max]` is occupied (the
availability check rejects them all), both strategies probe exactly
`min(maxTries, max - min + 1)` ports and then fail with
`NoAvailablePortFound` carrying the searched range, the strategy value, and
the effective try count. -/
theorem find_available_port_all_occupied (connects : Int → Bool)
    (sample : List Int) (rmin rmax mt : Int)
    (hle : rmin ≤ rmax) (hmt : 1 ≤ mt)
    (hs : validSample rmin rmax (clampedTries mt rmin rmax).toNat sample)
    (hocc : ∀ p, rmin ≤ p → p ≤ rmax → is_port_available connects p = false) :
    find_available_port connects sample rmin rmax mt SearchType.sequential =
      (FindResult.noAvailablePortFound rmin rmax SearchType.sequential
          (clampedTries mt rmin rmax),
        seqCandidates rmin rmax mt) ∧
    (seqCandidates rmin rmax mt).length = (clampedTries mt rmin rmax).toNat ∧
    find_available_port connects sample rmin rmax mt SearchType.random =
      (FindResult.noAvailablePortFound rmin rmax SearchType.random
          (clampedTries mt rmin rmax),
        sample) ∧
    sample.length = (clampedTries mt rmin rmax).toNat := by
  obtain ⟨hnd, hlen, hmem⟩ := hs
  have hnone_seq : probeLoop connects (seqCandidates rmin rmax mt) = none := by
    rw [probeLoop_eq_none_iff]
    intro p hp
    obtain ⟨h1, h2⟩ := seqCandidates_mem rmin rmax mt p hp
    exact hocc p h1 h2
  have hnone_rand : probeLoop connects sample = none := by
    rw [probeLoop_eq_none_iff]
    intro p hp
    obtain ⟨h1, h2⟩ := hmem p hp
    exact hocc p h1 h2
  refine ⟨?_, seqCandidates_length _ _ _, ?_, hlen⟩
  · rw [find_available_port_sequential, hnone_seq,
      probedPorts_of_none _ _ hnone_seq]
  · rw [find_available_port_random, hnone_rand,
      probedPorts_of_none _ _ hnone_rand]

theorem find_available_port_all_occupied_witness :
    (9000 : Int) ≤ 9002 ∧ (1 : Int) ≤ (10 : Int) ∧
    validSample 9000 9002 (clampedTries 10 9000 9002).toNat [9001, 9000, 9002] ∧
    find_available_port (fun _ => true) [9001, 9000, 9002] 9000 9002 10
        SearchType.sequential =
      (FindResult.noAvailablePortFound 9000 9002 SearchType.sequential 3,
        [9000, 9001, 9002]) := by
  refine ⟨by decide, by decide, by decide, ?_⟩
  have h := (find_available_port_all_occupied (fun _ => true) [9001, 9000, 9002]
      9000 9002 10 (by decide) (by decide) (by decide) (fun p _ _ => rfl)).1
  rw [h]
  decide

/-- C7: a search-strategy value outside `{"sequential", "random"}` makes
`find_available_port` fail with `InvalidSearchType` and an empty probe
trace, for every range and every `max_tries`. -/
theorem find_available_port_invalid_search_type (connects : Int → Bool)
    (sample : List Int) (rmin rmax mt : Int) (st : String)
    (h1 : st ≠ SearchType.sequential) (h2 : st ≠ SearchType.random) :
    find_available_port connects sample rmin rmax mt st =
      (FindResult.invalidSearchType st, []) := by
  unfold find_available_port
  rw [if_neg h1, if_neg h2]

theorem find_available_port_invalid_search_type_witness :
    ("binary" ≠ SearchType.sequential ∧ "binary" ≠ SearchType.random) ∧
    find_available_port (fun _ => false) [] 8000 8999 50 "binary" =
      (FindResult.invalidSearchType "binary", []) :=
  ⟨⟨by decide, by decide⟩,
    find_available_port_invalid_search_type (fun _ => false) [] 8000 8999 50
      "binary" (by decide) (by decide)⟩

/-- C9: `is_port_available` is a pure function of the external listening
state: on a port with no listener (`connects p = false`), two consecutive
calls both return `true`. -/
theorem is_port_available_idempotent (connects : Int → Bool) (p : Int)
    (h : connects p = false) :
    is_port_available connects p = true ∧ is_port_available connects p = true := by
  unfold is_port_available
  rw [h]
  exact ⟨rfl, rfl⟩

theorem is_port_available_idempotent_witness :
    (fun _ : Int => false) 8000 = false ∧
    (is_port_available (fun _ => false) 8000 = true ∧
      is_port_available (fun _ => false) 8000 = true) :=
  ⟨rfl, is_port_available_idempotent (fun _ => false) 8000 rfl⟩

/-- C10: with `max_tries = 0` and a recognized strategy, the clamped try
count is `0` on any range with `min ≤ max`, the candidate sequence is empty
(the sample `random.sample` returns for `k = 0` is `[]`), no port is probed,
and the call fails with `NoAvailablePortFound` rather than returning a port
or raising a different error. -/
theorem find_available_port_zero_tries (connects : Int → Bool)
    (rmin rmax : Int) (hle : rmin ≤ rmax) :
    find_available_port connects [] rmin rmax 0 SearchType.sequential =
      (FindResult.noAvailablePortFound rmin rmax SearchType.sequential 0, []) ∧
    find_available_port connects [] rmin rmax 0 SearchType.random =
      (FindResult.noAvailablePortFound rmin rmax SearchType.random 0, []) := by
  have hclamp : clampedTries 0 rmin rmax = 0 := by
    unfold clampedTries
    rw [min_eq_left (by omega)]
  have hseq : seqCandidates rmin rmax 0 = [] := by
    have h := seqCandidates_length rmin rmax 0
    rw [hclamp] at h
    exact List.length_eq_zero.mp (by simpa using h)
  constructor
  · rw [find_available_port_sequential, hseq, hclamp]
    rfl
  · rw [find_available_port_random, hclamp]
    rfl

theorem find_available_port_zero_tries_witness :
    (9000 : Int) ≤ 9002 ∧
    find_available_port (fun _ => false) [] 9000 9002 0 SearchType.sequential =
      (FindResult.noAvailablePortFound 9000 9002 SearchType.sequential 0, []) :=
  ⟨by decide,
    (find_available_port_zero_tries (fun _ => false) 9000 9002 (by decide)).1⟩

/-- C8: a `KeyboardInterrupt` arriving while the serve loop is still
iterating is caught at the loop boundary and stops the loop — the remaining
events are never consumed — the `with` block still releases the listening
socket, and the user-visible message is the interrupt one, distinct from the
message of the timeout path (also shown). -/
theorem run_timed_http_server_interrupt (address : String) (port : Int)
    (directory : String) (timeout : Int) (pre rest post : List ServerEvent)
    (hpre : ∀ e ∈ pre, e = ServerEvent.request)
    (hpost : ∀ e ∈ post, e = ServerEvent.request) :
    run_timed_http_server address port directory timeout
        (pre ++ ServerEvent.interrupt :: rest) =
      ([" KeyboardInterrupt received."], true) ∧
    run_timed_http_server address port directory timeout
        (post ++ ServerEvent.timeout :: []) =
      (["Timeout reached."], true) ∧
    (" KeyboardInterrupt received." : String) ≠ "Timeout reached." := by
  refine ⟨?_, ?_, by decide⟩
  · unfold run_timed_http_server
    rw [serveLoop_requests_interrupt pre rest hpre]
  · unfold run_timed_http_server
    rw [serveLoop_requests_timeout post [] hpost]

theorem run_timed_http_server_interrupt_witness :
    (∀ e ∈ [ServerEvent.request, ServerEvent.request], e = ServerEvent.request) ∧
    (∀ e ∈ [ServerEvent.request], e = ServerEvent.request) ∧
    run_timed_http_server "0.0.0.0" 9500 "build" 1
        ([ServerEvent.request, ServerEvent.request] ++
          ServerEvent.interrupt :: [ServerEvent.request]) =
      ([" KeyboardInterrupt received."], true) :=
  ⟨by decide, by decide,
    (run_timed_http_server_interrupt "0.0.0.0" 9500 "build" 1
        [ServerEvent.request, ServerEvent.request] [ServerEvent.request]
        [ServerEvent.request] (by decide) (by decide)).1⟩

/-- C1: in every CLI invocation whose port resolution succeeds (supplied or
found), the command body invokes the server-run collaborator with exactly the
resolved port, the served directory, and the timeout in seconds, and when the
serve loop (modelled from the spec as `core_run_timed_http_server`, the
`quickhttp.core` import) runs to completion, its whole output precedes the
final `"Server closed."` notification. -/
theorem quickhttp_runs_server_then_closes
    (serverRun : Int → String → Int → Option (List String))
    (connects : Int → Bool) (sample : List Int) (events : List ServerEvent)
    (directory : String) (time_sec : Int) (port : Option Int)
    (rmin rmax mt : Int) (st : String) (p : Int)
    (hres : (resolve_port connects sample port rmin rmax mt st).1 = FindResult.ok p)
    (hterm : serveLoop false events ≠ LoopResult.pending) :
    (∀ msgs, serverRun p directory time_sec = some msgs →
      quickhttp serverRun connects sample directory time_sec port rmin rmax mt st =
        CliOutcome.done
          (startupMessage p directory time_sec :: (msgs ++ ["Server closed."]))) ∧
    ∃ msgs, core_run_timed_http_server events p directory time_sec = some msgs ∧
      quickhttp (core_run_timed_http_server events) connects sample directory
          time_sec port rmin rmax mt st =
        CliOutcome.done
          (startupMessage p directory time_sec :: (msgs ++ ["Server closed."])) := by
  have hq : ∀ (sr : Int → String → Int → Option (List String)) msgs,
      sr p directory time_sec = some msgs →
      quickhttp sr connects sample directory time_sec port rmin rmax mt st =
        CliOutcome.done
          (startupMessage p directory time_sec :: (msgs ++ ["Server closed."])) := by
    intro sr msgs hmsgs
    unfold quickhttp
    rw [hres]
    show (match sr p directory time_sec with
      | some m =>
        CliOutcome.done
          (startupMessage p directory time_sec :: (m ++ ["Server closed."]))
      | none => CliOutcome.blocked) =
      CliOutcome.done
        (startupMessage p directory time_sec :: (msgs ++ ["Server closed."]))
    rw [hmsgs]
  refine ⟨hq serverRun, ?_⟩
  cases hcase : serveLoop false events with
  | timeoutExit =>
    have hrun : core_run_timed_http_server events p directory time_sec =
        some ["Timeout reached."] := by
      unfold core_run_timed_http_server
      rw [hcase]
    exact ⟨["Timeout reached."], hrun, hq _ _ hrun⟩
  | interruptExit =>
    have hrun : core_run_timed_http_server events p directory time_sec =
        some [" KeyboardInterrupt received."] := by
      unfold core_run_timed_http_server
      rw [hcase]
    exact ⟨[" KeyboardInterrupt received."], hrun, hq _ _ hrun⟩
  | pending => exact absurd hcase hterm

theorem quickhttp_runs_server_then_closes_witness :
    (resolve_port (fun _ => false) [] (some 9500) 8000 8999 50
        SearchType.sequential).1 = FindResult.ok 9500 ∧
    serveLoop false [ServerEvent.request, ServerEvent.timeout] ≠
      LoopResult.pending ∧
    quickhttp (core_run_timed_http_server
        [ServerEvent.request, ServerEvent.timeout])
        (fun _ => false) [] "build" 600 (some 9500) 8000 8999 50
        SearchType.sequential =
      CliOutcome.done
        (startupMessage 9500 "build" 600 ::
          (["Timeout reached."] ++ ["Server closed."])) :=
  ⟨by decide, by decide,
    (quickhttp_runs_server_then_closes
        (core_run_timed_http_server [ServerEvent.request, ServerEvent.timeout])
        (fun _ => false) [] [ServerEvent.request, ServerEvent.timeout] "build"
        600 (some 9500) 8000 8999 50 SearchType.sequential 9500
        (by decide) (by decide)).1 ["Timeout reached."] (by decide)⟩

/-- C2 counterexample at the failing input `--port 0`: the CLI guard is
`if not port:` (quickhttp.py line 75) and Python's `not 0` is true, so an
explicitly supplied port `0` does not bypass the Port Locator — the locator
probes (here port 8000, which is free) and its result, not the supplied
port, is what the server gets; a supplied nonzero port (9500) does bypass
the locator with no probe. This contradicts the option's own help text:
"If specified, ignores other options." -/
theorem resolve_port_zero_runs_locator :
    resolve_port (fun _ => false) [] (some 0) 8000 8010 50
        SearchType.sequential = (FindResult.ok 8000, [8000]) ∧
    resolve_port (fun _ => false) [] (some 9500) 8000 8010 50
        SearchType.sequential = (FindResult.ok 9500, []) ∧
    FindResult.ok (8000 : Int) ≠ FindResult.ok (0 : Int) := by
  refine ⟨by decide, by decide, by decide⟩
